import Mathlib

/-!
# Formal model of the booking-fago payment/booking core

Shallow embedding of the payment-to-booking reconciliation flow of the
repository (backend/routes/payments.js, backend/routes/auth.js booking
routes, backend/database.js index creation, backend/config/constants.js),
together with theorems settling the specification claims.

Conventions:
* JavaScript objects become structures; absent JSON fields become `Option`.
* JavaScript falsiness (`undefined`, `null`, `""`, `0`) is modelled by
  explicit `truthy`/`jsOr` helpers.
* MongoDB collections become lists; `insertOne` is list append.
* `Date` values are modelled as natural-number timestamps (minutes since
  an epoch); `new Date(s) <= new Date()` becomes `≤` on timestamps.
* Thrown exceptions caught by a route's `catch` are modelled by `Option` /
  `Except` results feeding the corresponding error branch.
-/

namespace Fago

/-! ## constants.js -/

/-- `PAYMENT_STATUS.PAID` from backend/config/constants.js. -/
def PAYMENT_STATUS_PAID : String := "paid"

/-- `BOOKING_STATUS.CANCELLED` from backend/config/constants.js. -/
def BOOKING_STATUS_CANCELLED : String := "cancelled"

/-! ## ObjectId and JavaScript truthiness helpers -/

/-- `new ObjectId(s)` succeeds exactly on 24-character hex strings;
otherwise the constructor throws. -/
def isValidObjectId (s : String) : Bool :=
  s.length == 24 && s.toList.all (fun c => c.isDigit || (c ≥ 'a' && c ≤ 'f') || (c ≥ 'A' && c ≤ 'F'))

/-- JS truthiness of a possibly-absent string (`undefined`, `null` and `""` are falsy). -/
def truthyS : Option String → Bool
  | none => false
  | some s => !(s == "")

/-- JS truthiness of a possibly-absent number (`undefined`, `null` and `0` are falsy). -/
def truthyQ : Option ℚ → Bool
  | none => false
  | some q => !(q == 0)

/-- JS `x || d` for string-valued fields. -/
def jsOrS (v : Option String) (d : String) : String :=
  match v with
  | none => d
  | some s => if s == "" then d else s

/-- JS `x || d` for number-valued fields. -/
def jsOrQ (v : Option ℚ) (d : ℚ) : ℚ :=
  match v with
  | none => d
  | some q => if q == 0 then d else q

/-- Guest-details JSON object, modelled as an association list. -/
abbrev GuestDetails := List (String × String)

/-- JS `x || \x7b\x7d` for the guest-details object (only `undefined`/`null`
are falsy among objects; `\x7b\x7d` itself is truthy). -/
def jsOrObj (v : Option GuestDetails) : GuestDetails :=
  match v with
  | none => []
  | some o => o

/-! ## Parsed booking intent (`JSON.parse(metadata.booking_data)`) -/

/-- The client-built booking intent round-tripped through the gateway's
`metadata.booking_data` JSON string. Every field may be absent. -/
structure BookingData where
  hotelName : Option String
  hotelLocation : Option String
  roomType : Option String
  checkin : Option String
  checkout : Option String
  guests : Option ℚ
  nights : Option ℚ
  pricePerNight : Option ℚ
  subtotal : Option ℚ
  serviceFee : Option ℚ
  guestDetails : Option GuestDetails
deriving DecidableEq

/-! ## Gateway verify response (Paystack `/transaction/verify`) -/

/-- `response.data` of the gateway's verify call. `booking_data` holds the
result of `JSON.parse(metadata.booking_data)`: `none` means the parse threw. -/
structure VerifyData where
  status : String
  amount : ℚ
  user_id : String
  hotel_id : String
  booking_data : Option BookingData
  paid_at : String
  channel : String
  authorization : String
deriving DecidableEq

/-- Top-level gateway verify response: `response.status` plus `response.data`. -/
structure VerifyResponse where
  status : Bool
  data : VerifyData
deriving DecidableEq

/-! ## Persisted documents -/

/-- A document of the `bookings` collection as built by `newBooking` in
`router.get('/verify')` (backend/routes/payments.js). -/
structure Booking where
  user_id : String
  hotel_id : String
  hotel_name : Option String
  hotel_location : Option String
  room_type : String
  check_in : Option String
  check_out : Option String
  guests : ℚ
  nights : ℚ
  price_per_night : ℚ
  subtotal : ℚ
  service_fee : ℚ
  total_amount : ℚ
  payment_status : String
  booking_status : String
  transaction_reference : String
  guest_details : GuestDetails
  created_at : ℕ
  updated_at : ℕ
deriving DecidableEq

/-- A document of the `payments` collection as built by `paymentRecord` in
`router.get('/verify')`. `booking_id` is the inserted booking's id, modelled
as its index in the bookings list. -/
structure PaymentRecord where
  booking_id : ℕ
  user_id : String
  amount : ℚ
  currency : String
  status : String
  transaction_reference : String
  paid_at : String
  channel : String
  authorization : String
  created_at : ℕ
deriving DecidableEq

/-- The durable store: the `bookings` and `payments` collections. -/
structure Store where
  bookings : List Booking
  payments : List PaymentRecord
deriving DecidableEq

/-- The empty store. -/
def Store.empty : Store := ⟨[], []⟩

/-! ## GET /api/payment/verify -/

/-- Observable outcome of the verify route: each constructor is one of the
four redirects issued by `router.get('/verify')`. -/
inductive VerifyOutcome where
  | missingReference
  | successRedirect (ref : String)
  | paymentFailed
  | verificationFailed
deriving DecidableEq

/-- The `newBooking` object literal of `router.get('/verify')`. -/
def mkNewBooking (ref : String) (d : VerifyData) (bd : BookingData) (now : ℕ) : Booking :=
  { user_id := d.user_id
    hotel_id := d.hotel_id
    hotel_name := bd.hotelName
    hotel_location := bd.hotelLocation
    room_type := jsOrS bd.roomType "Standard Room"
    check_in := bd.checkin
    check_out := bd.checkout
    guests := jsOrQ bd.guests 1
    nights := jsOrQ bd.nights 1
    price_per_night := jsOrQ bd.pricePerNight 0
    subtotal := jsOrQ bd.subtotal 0
    service_fee := jsOrQ bd.serviceFee 0
    total_amount := d.amount / 100
    payment_status := PAYMENT_STATUS_PAID
    booking_status := "confirmed"
    transaction_reference := ref
    guest_details := jsOrObj bd.guestDetails
    created_at := now
    updated_at := now }

/-- The `paymentRecord` object literal of `router.get('/verify')`;
`bookingId` is `bookingResult.insertedId`. -/
def mkPaymentRecord (ref : String) (d : VerifyData) (bookingId : ℕ) (now : ℕ) : PaymentRecord :=
  { booking_id := bookingId
    user_id := d.user_id
    amount := d.amount / 100
    currency := "NGN"
    status := PAYMENT_STATUS_PAID
    transaction_reference := ref
    paid_at := d.paid_at
    channel := d.channel
    authorization := d.authorization
    created_at := now }

/-- One invocation of `router.get('/verify')` (backend/routes/payments.js).

Inputs: the `reference` query parameter (`none` = absent), the result of
`verifyPayment(reference)` (`Except.error` = the call threw), whether
`database.getDb()` returns a handle, the current store and the current time.

Returns the redirect outcome and the store after the invocation. Note the
source performs no duplicate check before `insertOne`, and when `getDb()`
yields no handle it skips both inserts yet still issues the success
redirect. -/
def verify (reference : Option String) (gw : Except Unit VerifyResponse)
    (dbAvailable : Bool) (now : ℕ) (st : Store) : VerifyOutcome × Store :=
  match reference with
  | none => (.missingReference, st)
  | some ref =>
    match gw with
    | .error _ => (.verificationFailed, st)
    | .ok response =>
      if response.status && response.data.status == "success" then
        match response.data.booking_data with
        | none => (.verificationFailed, st)
        | some bd =>
          if dbAvailable then
            if isValidObjectId response.data.user_id then
              let nb := mkNewBooking ref response.data bd now
              let insertedId := st.bookings.length
              let pr := mkPaymentRecord ref response.data insertedId now
              (.successRedirect ref,
               { bookings := st.bookings ++ [nb], payments := st.payments ++ [pr] })
            else (.verificationFailed, st)
          else (.successRedirect ref, st)
      else (.paymentFailed, st)

/-- The store after `n` sequential invocations of the verify route with the
same reference and the same gateway response. -/
def iterateVerify (reference : Option String) (gw : Except Unit VerifyResponse)
    (dbAvailable : Bool) (now : ℕ) : ℕ → Store → Store
  | 0, st => st
  | n + 1, st => iterateVerify reference gw dbAvailable now n
      (verify reference gw dbAvailable now st).2

/-- Bookings in the store bearing a given transaction reference. -/
def Store.bookingsFor (st : Store) (ref : String) : List Booking :=
  st.bookings.filter (fun b => b.transaction_reference == ref)

/-- Payment records in the store bearing a given transaction reference. -/
def Store.paymentsFor (st : Store) (ref : String) : List PaymentRecord :=
  st.payments.filter (fun p => p.transaction_reference == ref)

/-! ## IEEE-754 binary64 arithmetic

JavaScript numbers are IEEE-754 binary64 values and `*` is IEEE
multiplication: the exact product rounded to the nearest representable
double (ties to even). We model finite doubles as the rationals fixed by
`roundDouble` (overflow to infinity is outside the range exercised here). -/

/-- Fuelled floor of log base 2: `log2F fuel n` is `⌊log₂ n⌋` for `1 ≤ n ≤ 2 ^ fuel`. -/
def log2F : ℕ → ℕ → ℕ
  | 0, _ => 0
  | fuel + 1, n => if n ≤ 1 then 0 else log2F fuel (n / 2) + 1

/-- `⌊log₂ n⌋` for positive `n` (fuel `n` always suffices). -/
def natLog2 (n : ℕ) : ℕ := log2F n n

/-- `⌊log₂ |q|⌋` for a nonzero rational: estimate from numerator and
denominator bit lengths, then correct downward if the estimate overshoots. -/
def floorLog2 (q : ℚ) : ℤ :=
  let e : ℤ := (natLog2 q.num.natAbs : ℤ) - (natLog2 q.den : ℤ)
  if (2 : ℚ) ^ e ≤ |q| then e else e - 1

/-- Round a rational to the nearest integer, ties to even. -/
def roundHalfEven (s : ℚ) : ℤ :=
  let fl := ⌊s⌋
  let fr := s - (fl : ℚ)
  if fr < 1 / 2 then fl
  else if 1 / 2 < fr then fl + 1
  else if fl % 2 = 0 then fl else fl + 1

/-- Round a real (rational) value to the nearest IEEE-754 binary64 value,
ties to even: scale the significand into `[2^52, 2^53)` (or to the fixed
subnormal scale `2^-1074` below the normal range), round, and scale back. -/
def roundDouble (q : ℚ) : ℚ :=
  if q = 0 then 0
  else
    let a := |q|
    let e := floorLog2 a
    let p : ℤ := if e ≤ -1023 then -1074 else e - 52
    let n := roundHalfEven (a * (2 : ℚ) ^ (-p))
    (if q < 0 then (-1 : ℚ) else 1) * (n : ℚ) * (2 : ℚ) ^ p

/-- JavaScript `x * y` on numbers: IEEE binary64 multiplication. -/
def jsMul (x y : ℚ) : ℚ := roundDouble (x * y)

/-- `q` is a finite double (i.e. representable, so `roundDouble` fixes it). -/
def isDouble (q : ℚ) : Prop := roundDouble q = q

/-! ## POST /api/payment/initialize -/

/-- The `paymentData` object sent to the gateway's Initialize operation by
`router.post('/initialize')`; `amount` is the JS product `amount * 100`. -/
structure PaymentData where
  email : String
  amount : ℚ
  currency : String
  hotel_id : String
  user_id : String
  booking_data : BookingData
deriving DecidableEq

/-- `response.data` of the gateway's initialize call. -/
structure InitData where
  authorization_url : String
  reference : String
deriving DecidableEq

/-- Top-level gateway initialize response. -/
structure InitResponse where
  status : Bool
  data : InitData
deriving DecidableEq

/-- Observable outcome of the initialize route. -/
inductive InitOutcome where
  | missingInfo
  | authorization (url ref : String)
  | initFailed
  | serviceError
deriving DecidableEq

/-- The empty parsed booking intent (all fields absent). -/
def BookingData.empty : BookingData :=
  ⟨none, none, none, none, none, none, none, none, none, none, none⟩

/-- One invocation of `router.post('/initialize')` (backend/routes/payments.js),
after the access guard. Inputs are the request-body fields (`none` = absent)
and the gateway's reply to `initializePayment` (`Except.error` = it threw).

Returns the outcome and, when the gateway Initialize call was made, the
`paymentData` payload it was called with (`none` = no gateway call). The
source validates only JS-truthiness of the four fields; amounts and dates
are not otherwise checked. -/
def initPayment (sessionUserId : String) (email : Option String) (amount : Option ℚ)
    (hotelId : Option String) (bookingData : Option BookingData)
    (gw : Except Unit InitResponse) : InitOutcome × Option PaymentData :=
  if !(truthyS email && truthyQ amount && truthyS hotelId && bookingData.isSome) then
    (.missingInfo, none)
  else
    let pd : PaymentData :=
      { email := email.getD ""
        amount := jsMul (amount.getD 0) 100
        currency := "NGN"
        hotel_id := hotelId.getD ""
        user_id := sessionUserId
        booking_data := bookingData.getD BookingData.empty }
    match gw with
    | .error _ => (.serviceError, some pd)
    | .ok r =>
      if r.status then (.authorization r.data.authorization_url r.data.reference, some pd)
      else (.initFailed, some pd)

/-! ## Database.createIndexes (backend/database.js) -/

/-- A MongoDB index specification: collection, key pattern, uniqueness. -/
structure IndexSpec where
  collection : String
  key : List (String × ℤ)
  unique : Bool
deriving DecidableEq

/-- The exact list of indexes created by `Database.createIndexes`. -/
def createIndexes : List IndexSpec :=
  [ ⟨"users", [("email", 1)], true⟩,
    ⟨"hotels", [("location", 1)], false⟩,
    ⟨"hotels", [("rating", -1)], false⟩,
    ⟨"bookings", [("user_id", 1)], false⟩,
    ⟨"bookings", [("hotel_id", 1)], false⟩ ]

/-- A stored document, abstracted to an association list of field values. -/
abbrev Document := List (String × String)

/-- Field lookup in a document. -/
def lookupField (d : Document) (f : String) : Option String :=
  (d.find? (fun kv => kv.1 == f)).map (fun kv => kv.2)

/-- Whether inserting `d` into collection `coll` already holding `docs`
violates some unique index of `idxs` (MongoDB rejects the insert iff so). -/
def violatesUnique (idxs : List IndexSpec) (coll : String) (docs : List Document)
    (d : Document) : Bool :=
  idxs.any (fun s => s.collection == coll && s.unique &&
    docs.any (fun d0 => s.key.all (fun k => lookupField d0 k.1 == lookupField d k.1)))

/-- Whether the storage layer accepts inserting `d` into `coll`. -/
def insertAllowed (idxs : List IndexSpec) (coll : String) (docs : List Document)
    (d : Document) : Bool :=
  !violatesUnique idxs coll docs d

/-! ## POST /api/bookings/:id/cancel (backend/routes/auth.js bookings router) -/

/-- A bookings-collection document as read by the lifecycle routes.
`check_in` is the parsed timestamp `new Date(booking.check_in)`, in minutes. -/
structure LBooking where
  id : String
  user_id : String
  booking_status : String
  check_in : ℕ
  cancelled_at : Option ℕ
  updated_at : ℕ
deriving DecidableEq

/-- Observable outcome of the cancel route. -/
inductive CancelOutcome where
  | dbUnavailable
  | cancelError
  | notFound
  | alreadyCancelled
  | tooLate
  | cancelled
deriving DecidableEq

/-- `findOne(\x7b _id, user_id \x7d)`: the booking with the given id owned by
the given user. -/
def findBooking (bs : List LBooking) (bid uid : String) : Option LBooking :=
  bs.find? (fun b => b.id == bid && b.user_id == uid)

/-- Calendar day of a timestamp (minutes since epoch, 1440 minutes per day). -/
def dayOf (t : ℕ) : ℕ := t / 1440

/-- One invocation of `router.post('/:id/cancel')`. `now` is `new Date()`.
A malformed booking or session id makes `new ObjectId` throw into the
catch branch. The eligibility test compares the full parsed check-in
instant against the current instant (`checkinDate <= currentDate`). -/
def cancel (dbAvailable : Bool) (bs : List LBooking) (bid uid : String) (now : ℕ) :
    CancelOutcome × List LBooking :=
  if !dbAvailable then (.dbUnavailable, bs)
  else if !(isValidObjectId bid && isValidObjectId uid) then (.cancelError, bs)
  else
    match findBooking bs bid uid with
    | none => (.notFound, bs)
    | some b =>
      if b.booking_status == BOOKING_STATUS_CANCELLED then (.alreadyCancelled, bs)
      else if b.check_in ≤ now then (.tooLate, bs)
      else
        (.cancelled,
         bs.map (fun x =>
           if x.id == bid then
             { x with booking_status := BOOKING_STATUS_CANCELLED,
                      cancelled_at := some now, updated_at := now }
           else x))

/-! ## GET /api/bookings (backend/routes/auth.js bookings router) -/

/-- Newest-first order on bookings: `a` precedes `b` when `a` was created
no earlier than `b` (`sort(\x7b created_at: -1 \x7d)`). -/
def newestFirst (a b : Booking) : Prop := b.created_at ≤ a.created_at

instance : DecidableRel newestFirst := fun a b => Nat.decLe b.created_at a.created_at

instance : IsTotal Booking newestFirst :=
  ⟨fun a b => le_total b.created_at a.created_at⟩

instance : IsTrans Booking newestFirst :=
  ⟨fun _ _ _ hab hbc => le_trans hbc hab⟩

/-- One invocation of `router.get('/')` of the bookings router: find the
current user's bookings, newest first. A malformed session id makes
`new ObjectId` throw into the catch branch (fail closed). -/
def getBookings (dbAvailable : Bool) (sessionUserId : String) (bs : List Booking) :
    Except String (List Booking) :=
  if !dbAvailable then .error "Database not connected"
  else if !(isValidObjectId sessionUserId) then .error "Failed to retrieve bookings"
  else .ok (List.insertionSort newestFirst
      (bs.filter (fun b => b.user_id == sessionUserId)))

/-! ## Concrete sample values used by witnesses and counterexamples -/

/-- A well-formed user ObjectId (24 hex characters). -/
def uidA : String := "aaaaaaaaaaaaaaaaaaaaaaaa"

/-- A second, distinct well-formed user ObjectId. -/
def uidB : String := "bbbbbbbbbbbbbbbbbbbbbbbb"

/-- A well-formed booking ObjectId. -/
def bidA : String := "cccccccccccccccccccccccc"

/-- A fully populated parsed booking intent (spec §8 scenario values). -/
def bdSample : BookingData :=
  ⟨some "Grand Palace Hotel", some "Victoria Island, Lagos", some "Deluxe Suite",
   some "2025-03-10", some "2025-03-12", some 2, some 2, some 45000,
   some 90000, some 4500, some [("name", "Ada")]⟩

/-- An intent whose client-computed total (90000 + 0) differs from the
gateway-confirmed amount. -/
def bdMismatch : BookingData :=
  ⟨some "Grand Palace Hotel", some "Victoria Island, Lagos", some "Deluxe Suite",
   some "2025-03-10", some "2025-03-12", some 2, some 2, some 45000,
   some 90000, none, some [("name", "Ada")]⟩

/-- A gateway verify response confirming success, amount 9450000 kobo. -/
def respSuccess : VerifyResponse :=
  ⟨true, ⟨"success", 9450000, uidA, "hotel1", some bdSample, "2025-03-10T12:00:00Z", "card", "AUTH1"⟩⟩

/-- A gateway verify response confirming success whose metadata intent is
`bdMismatch`. -/
def respMismatch : VerifyResponse :=
  ⟨true, ⟨"success", 9450000, uidA, "hotel1", some bdMismatch, "2025-03-10T12:00:00Z", "card", "AUTH1"⟩⟩

/-- A gateway verify response confirming success with an entirely empty
parsed intent. -/
def respEmptyIntent : VerifyResponse :=
  ⟨true, ⟨"success", 9450000, uidA, "hotel1", some BookingData.empty, "2025-03-10T12:00:00Z", "card", "AUTH1"⟩⟩

/-- A gateway verify response reporting a non-success transaction status. -/
def respFailed : VerifyResponse :=
  ⟨true, ⟨"failed", 9450000, uidA, "hotel1", some bdSample, "", "card", "AUTH1"⟩⟩

/-- A successful gateway initialize response. -/
def gwInitOk : Except Unit InitResponse :=
  .ok ⟨true, ⟨"https://checkout.gateway/xyz", "REF123"⟩⟩

/-- A confirmed stored booking owned by `uidA`, check-in at minute 700 of
day 0 (11:40), never cancelled. -/
def lbA : LBooking := ⟨bidA, uidA, "confirmed", 700, none, 0⟩

/-- A stored booking of `uidA` created at time 5. -/
def qbA1 : Booking :=
  mkNewBooking "REF123" respSuccess.data bdSample 5

/-- A stored booking of `uidA` created at time 9. -/
def qbA2 : Booking :=
  mkNewBooking "REF124" respSuccess.data bdSample 9

/-- A stored booking owned by `uidB`, created at time 7. -/
def qbB : Booking :=
  mkNewBooking "REF125" ⟨"success", 9450000, uidB, "hotel2", some bdSample, "t", "card", "AUTH2"⟩ bdSample 7

end Fago

namespace Fago

/-! ## Helper lemmas -/

/-- On a non-success gateway status the verify route redirects with
`payment_failed` and leaves the store untouched. -/
theorem verify_non_success (ref : String) (resp : VerifyResponse) (db : Bool) (now : ℕ)
    (st : Store) (h : (resp.status && resp.data.status == "success") = false) :
    verify (some ref) (.ok resp) db now st = (.paymentFailed, st) := by
  simp [verify, h]

/-- On a gateway-confirmed success with parsable metadata, a valid owner id
and an available store, the verify route appends one booking and one
payment record and redirects to success. -/
theorem verify_success_eq (ref : String) (resp : VerifyResponse) (bd : BookingData)
    (now : ℕ) (st : Store)
    (h1 : resp.status = true) (h2 : resp.data.status = "success")
    (h3 : resp.data.booking_data = some bd)
    (h4 : isValidObjectId resp.data.user_id = true) :
    verify (some ref) (.ok resp) true now st =
      (.successRedirect ref,
       { bookings := st.bookings ++ [mkNewBooking ref resp.data bd now],
         payments := st.payments ++ [mkPaymentRecord ref resp.data st.bookings.length now] }) := by
  simp [verify, h1, h2, h3, h4]

/-! ## Claim C1 -/

/-- C1: the claim demands that invoking the verification operation twice
for the same gateway-confirmed-success reference leaves exactly one Booking
and one PaymentRecord for that reference. The code performs no idempotency
check: two sequential invocations for reference "REF123" leave two Bookings
and two PaymentRecords bearing that reference. -/
theorem c1_duplicate_materialization :
    ((iterateVerify (some "REF123") (.ok respSuccess) true 0 2 Store.empty).bookingsFor
        "REF123").length = 2 ∧
    ((iterateVerify (some "REF123") (.ok respSuccess) true 0 2 Store.empty).paymentsFor
        "REF123").length = 2 := by
  decide

/-! ## Claim C2 -/

/-- C2 counterexample: `createIndexes` creates no unique index on the
bookings collection, and no bookings index mentions the
`transaction_reference` field at all. -/
theorem c2_counterexample :
    (createIndexes.filter (fun s =>
        s.collection == "bookings" &&
        (s.unique || s.key.any (fun k => k.1 == "transaction_reference")))).length = 0 := by
  decide

/-- C2 amended: the bookings collection carries exactly two indexes, both
non-unique, on `user_id` and `hotel_id`; consequently the storage layer
accepts a second booking document bearing an already-stored transaction
reference, while (for contrast) the unique `users.email` index does reject
a duplicate email. -/
theorem c2_amended_no_storage_uniqueness :
    (createIndexes.filter (fun s => s.collection == "bookings")).map
        (fun s => (s.key, s.unique)) =
      [([("user_id", 1)], false), ([("hotel_id", 1)], false)] ∧
    insertAllowed createIndexes "bookings"
      [[("transaction_reference", "REF123"), ("user_id", "a")]]
      [("transaction_reference", "REF123"), ("user_id", "b")] = true ∧
    insertAllowed createIndexes "users"
      [[("email", "x@y.z")]] [("email", "x@y.z")] = false := by
  refine ⟨by decide, by decide, by decide⟩

/-! ## Claim C3 -/

/-- C3: the claim demands that a gateway-confirmed success whose storage
write does not happen is never reported as a success redirect. When the
database handle is unavailable the code skips both inserts and still
redirects to the success page, leaving the store empty. -/
theorem c3_success_redirect_without_record :
    verify (some "REF123") (.ok respSuccess) false 0 Store.empty =
      (.successRedirect "REF123", Store.empty) ∧
    (Store.empty.bookingsFor "REF123").length = 0 ∧
    (Store.empty.paymentsFor "REF123").length = 0 := by
  decide

/-! ## Claim C4 -/

/-- C4: on a materialization, the stored Booking's `total_amount` and the
PaymentRecord's `amount` both equal the gateway-confirmed amount divided by
100 (kobo to naira), independent of the client intent's own figures: when
the intent's computed total (subtotal plus service fee) differs from the
gateway amount, the stored total still follows the gateway. -/
theorem c4_gateway_amount_authoritative (ref : String) (resp : VerifyResponse)
    (bd : BookingData) (st : Store) (now : ℕ)
    (h1 : resp.status = true) (h2 : resp.data.status = "success")
    (h3 : resp.data.booking_data = some bd)
    (h4 : isValidObjectId resp.data.user_id = true) :
    ∃ b p, (verify (some ref) (.ok resp) true now st).2.bookings = st.bookings ++ [b] ∧
      (verify (some ref) (.ok resp) true now st).2.payments = st.payments ++ [p] ∧
      b.total_amount = resp.data.amount / 100 ∧
      p.amount = resp.data.amount / 100 ∧
      (jsOrQ bd.subtotal 0 + jsOrQ bd.serviceFee 0 ≠ resp.data.amount / 100 →
        b.total_amount ≠ jsOrQ bd.subtotal 0 + jsOrQ bd.serviceFee 0) := by
  refine ⟨mkNewBooking ref resp.data bd now,
          mkPaymentRecord ref resp.data st.bookings.length now, ?_, ?_, rfl, rfl, ?_⟩
  · rw [verify_success_eq ref resp bd now st h1 h2 h3 h4]
  · rw [verify_success_eq ref resp bd now st h1 h2 h3 h4]
  · intro hne
    show resp.data.amount / 100 ≠ _
    exact fun h => hne h.symm

/-- C4 witness: concrete intent with client total 90000 while the gateway
confirms 9450000 kobo = 94500 naira. -/
theorem c4_witness :
    respMismatch.status = true ∧ respMismatch.data.status = "success" ∧
    respMismatch.data.booking_data = some bdMismatch ∧
    isValidObjectId respMismatch.data.user_id = true ∧
    (∃ b p, (verify (some "REF123") (.ok respMismatch) true 0 Store.empty).2.bookings =
        Store.empty.bookings ++ [b] ∧
      (verify (some "REF123") (.ok respMismatch) true 0 Store.empty).2.payments =
        Store.empty.payments ++ [p] ∧
      b.total_amount = respMismatch.data.amount / 100 ∧
      p.amount = respMismatch.data.amount / 100 ∧
      (jsOrQ bdMismatch.subtotal 0 + jsOrQ bdMismatch.serviceFee 0 ≠
          respMismatch.data.amount / 100 →
        b.total_amount ≠ jsOrQ bdMismatch.subtotal 0 + jsOrQ bdMismatch.serviceFee 0)) :=
  ⟨rfl, rfl, rfl, by decide,
   c4_gateway_amount_authoritative "REF123" respMismatch bdMismatch Store.empty 0
     rfl rfl rfl (by decide)⟩

/-! ## Claim C5 -/

/-- C5 counterexample: an initiation request with total amount −5 (≤ 0) and
otherwise well-formed fields is not rejected: the gateway Initialize call is
made and its authorization outcome is returned to the caller. -/
theorem c5_counterexample :
    ((initPayment uidA (some "a@b.io") (some (-5)) (some "hotel1")
        (some BookingData.empty) gwInitOk).2).isSome = true ∧
    (initPayment uidA (some "a@b.io") (some (-5)) (some "hotel1")
        (some BookingData.empty) gwInitOk).1 =
      InitOutcome.authorization "https://checkout.gateway/xyz" "REF123" := by
  constructor <;> simp [initPayment, truthyS, truthyQ, gwInitOk]

/-- C5 amended: the initiate operation validates only JS-truthiness of the
four request fields: the gateway Initialize call is made exactly when
email, amount, hotelId and bookingData are all truthy (so a zero amount is
rejected as missing information, but negative amounts and past or inverted
dates are passed straight through to the gateway), and the missing-info
outcome occurs exactly when some field is falsy. -/
theorem c5_amended_truthiness_only (sid : String) (email : Option String)
    (amount : Option ℚ) (hotelId : Option String) (bookingData : Option BookingData)
    (gw : Except Unit InitResponse) :
    (((initPayment sid email amount hotelId bookingData gw).2).isSome =
        (truthyS email && truthyQ amount && truthyS hotelId && bookingData.isSome)) ∧
    (((initPayment sid email amount hotelId bookingData gw).1 = InitOutcome.missingInfo) ↔
        (truthyS email && truthyQ amount && truthyS hotelId && bookingData.isSome) = false) := by
  by_cases h : (truthyS email && truthyQ amount && truthyS hotelId && bookingData.isSome) = true
  · rw [h]
    constructor
    · cases gw with
      | error e => simp [initPayment, h]
      | ok r =>
        by_cases hr : r.status = true <;> simp [initPayment, h, hr]
    · cases gw with
      | error e => simp [initPayment, h]
      | ok r =>
        by_cases hr : r.status = true <;> simp [initPayment, h, hr]
  · rw [Bool.not_eq_true] at h
    rw [h]
    simp [initPayment, h]

/-! ## Claim C6 -/

/-- C6: whenever the gateway verify response does not report status
"success", any number of invocations of the verify route leaves the store
exactly as it was: no Booking and no PaymentRecord is ever created. -/
theorem c6_non_success_never_materializes (ref : String) (resp : VerifyResponse)
    (db : Bool) (now : ℕ) (n : ℕ) (st : Store)
    (h : (resp.status && resp.data.status == "success") = false) :
    iterateVerify (some ref) (.ok resp) db now n st = st := by
  induction n generalizing st with
  | zero => rfl
  | succ k ih =>
    show iterateVerify (some ref) (.ok resp) db now k
        (verify (some ref) (.ok resp) db now st).2 = st
    rw [verify_non_success ref resp db now st h]
    exact ih st

/-- C6 witness: three invocations for a reference whose gateway status is
"failed" leave the empty store empty. -/
theorem c6_witness :
    (respFailed.status && respFailed.data.status == "success") = false ∧
    iterateVerify (some "REF9") (.ok respFailed) true 0 3 Store.empty = Store.empty :=
  ⟨by decide, c6_non_success_never_materializes "REF9" respFailed true 0 3 Store.empty (by decide)⟩

/-! ## Claim C7 -/

/-- C7 counterexample: booking `lbA` checks in at minute 700 of day 0; at
minute 600 of the same day its check-in date equals "today", so the claim
demands `TooLateToCancel` with the status unchanged — but the code compares
full instants (700 ≤ 600 is false) and cancels the booking, mutating its
status. -/
theorem c7_counterexample :
    dayOf lbA.check_in ≤ dayOf 600 ∧
    (cancel true [lbA] bidA uidA 600).1 = CancelOutcome.cancelled ∧
    (cancel true [lbA] bidA uidA 600).2 =
      [⟨bidA, uidA, "cancelled", 700, some 600, 600⟩] := by
  decide

/-- C7 amended: for a booking owned by the caller that is not already
cancelled, the cancel operation fails with `TooLateToCancel` precisely when
the parsed check-in instant is ≤ the current instant (a full date-time
comparison, not a date-only one), and in that case the store is left
unchanged. A check-in later the same day is therefore allowed to cancel. -/
theorem c7_amended_instant_comparison (bs : List LBooking) (bid uid : String)
    (now : ℕ) (b : LBooking)
    (hbid : isValidObjectId bid = true) (huid : isValidObjectId uid = true)
    (hfind : findBooking bs bid uid = some b)
    (hstatus : (b.booking_status == BOOKING_STATUS_CANCELLED) = false) :
    ((cancel true bs bid uid now).1 = CancelOutcome.tooLate ↔ b.check_in ≤ now) ∧
    (b.check_in ≤ now → cancel true bs bid uid now = (CancelOutcome.tooLate, bs)) := by
  by_cases hle : b.check_in ≤ now
  · simp [cancel, hbid, huid, hfind, hstatus, hle]
  · simp [cancel, hbid, huid, hfind, hstatus, hle]

/-- C7 amended witness: check-in at minute 700, current time minute 800 of
the same day: cancel fails `tooLate` and the list of bookings is unchanged. -/
theorem c7_amended_witness :
    isValidObjectId bidA = true ∧ isValidObjectId uidA = true ∧
    findBooking [lbA] bidA uidA = some lbA ∧
    (lbA.booking_status == BOOKING_STATUS_CANCELLED) = false ∧
    (((cancel true [lbA] bidA uidA 800).1 = CancelOutcome.tooLate ↔ lbA.check_in ≤ 800) ∧
     (lbA.check_in ≤ 800 → cancel true [lbA] bidA uidA 800 = (CancelOutcome.tooLate, [lbA]))) :=
  ⟨by decide, by decide, by decide, by decide,
   c7_amended_instant_comparison [lbA] bidA uidA 800 lbA
     (by decide) (by decide) (by decide) (by decide)⟩

/-! ## Claim C8 -/

/-- C8: for a well-formed authenticated identity the list-bookings route
returns exactly that identity's bookings (a permutation of the ownership
filter), sorted newest first by creation time; every returned booking is
owned by the caller and none by any other identity; and a malformed
identity fails closed with an error carrying no bookings. -/
theorem c8_list_scoped_to_owner (A : String) (bs : List Booking)
    (hA : isValidObjectId A = true) :
    ∃ l, getBookings true A bs = Except.ok l ∧
      l.Perm (bs.filter (fun b => b.user_id == A)) ∧
      List.Sorted newestFirst l ∧
      (∀ b ∈ l, b.user_id = A) ∧
      (∀ B, B ≠ A → ∀ b ∈ l, b.user_id ≠ B) ∧
      (∀ A2, isValidObjectId A2 = false →
        getBookings true A2 bs = Except.error "Failed to retrieve bookings") := by
  refine ⟨List.insertionSort newestFirst (bs.filter (fun b => b.user_id == A)),
    by simp [getBookings, hA], List.perm_insertionSort _ _,
    List.sorted_insertionSort _ _, ?_, ?_, ?_⟩
  · intro b hb
    have hmem : b ∈ bs.filter (fun b => b.user_id == A) :=
      (List.perm_insertionSort newestFirst _).mem_iff.mp hb
    have hba : (b.user_id == A) = true := by simpa using List.of_mem_filter hmem
    exact eq_of_beq hba
  · intro B hBA b hb
    have hmem : b ∈ bs.filter (fun b => b.user_id == A) :=
      (List.perm_insertionSort newestFirst _).mem_iff.mp hb
    have hba : (b.user_id == A) = true := by simpa using List.of_mem_filter hmem
    rw [eq_of_beq hba]
    exact fun hc => hBA hc.symm
  · intro A2 h2
    simp [getBookings, h2]

/-- C8 witness: a store holding two bookings of `uidA` and one of `uidB`;
listing for `uidA` satisfies all the scoping, permutation and ordering
properties. -/
theorem c8_witness :
    isValidObjectId uidA = true ∧
    (∃ l, getBookings true uidA [qbA1, qbB, qbA2] = Except.ok l ∧
      l.Perm ([qbA1, qbB, qbA2].filter (fun b => b.user_id == uidA)) ∧
      List.Sorted newestFirst l ∧
      (∀ b ∈ l, b.user_id = uidA) ∧
      (∀ B, B ≠ uidA → ∀ b ∈ l, b.user_id ≠ B) ∧
      (∀ A2, isValidObjectId A2 = false →
        getBookings true A2 [qbA1, qbB, qbA2] = Except.error "Failed to retrieve bookings")) :=
  ⟨by decide, c8_list_scoped_to_owner uidA [qbA1, qbB, qbA2] (by decide)⟩

/-! ## IEEE rounding lemmas (claim C9) -/

/-- `log2F` with sufficient fuel brackets its argument between consecutive
powers of two. -/
theorem log2F_correct : ∀ fuel n : ℕ, 0 < n → n ≤ 2 ^ fuel →
    2 ^ log2F fuel n ≤ n ∧ n < 2 ^ (log2F fuel n + 1) := by
  intro fuel
  induction fuel with
  | zero =>
    intro n h1 h2
    have hn : n = 1 := le_antisymm (by simpa using h2) h1
    subst hn
    simp [log2F]
  | succ k ih =>
    intro n h1 h2
    by_cases hle : n ≤ 1
    · have hn : n = 1 := le_antisymm hle h1
      subst hn
      simp [log2F]
    · have h2n : 2 ≤ n := by omega
      have hpos : 0 < n / 2 := Nat.div_pos h2n (by omega)
      have hdiv : n / 2 ≤ 2 ^ k := by
        have h' : n / 2 ≤ 2 ^ (k + 1) / 2 := Nat.div_le_div_right h2
        have h'' : 2 ^ (k + 1) / 2 = 2 ^ k := by
          rw [Nat.pow_succ, Nat.mul_div_cancel _ (by norm_num)]
        omega
      obtain ⟨ha, hb⟩ := ih (n / 2) hpos hdiv
      have hunfold : log2F (k + 1) n = log2F k (n / 2) + 1 := by
        simp [log2F, hle]
      have hpow1 : 2 ^ (log2F k (n / 2) + 1) = 2 * 2 ^ log2F k (n / 2) := by
        rw [Nat.pow_succ]; ring
      have hpow2 : 2 ^ (log2F k (n / 2) + 1 + 1) = 2 * 2 ^ (log2F k (n / 2) + 1) := by
        rw [Nat.pow_succ _ (log2F k (n / 2) + 1)]; ring
      rw [hunfold]
      omega

/-- `natLog2` brackets a positive natural between consecutive powers of two. -/
theorem natLog2_correct (n : ℕ) (h : 0 < n) :
    2 ^ natLog2 n ≤ n ∧ n < 2 ^ (natLog2 n + 1) :=
  log2F_correct n n h (le_of_lt (Nat.lt_two_pow n))

/-- `floorLog2` of a positive rational brackets it between consecutive
integer powers of two. -/
theorem floorLog2_correct (q : ℚ) (hq : 0 < q) :
    (2 : ℚ) ^ floorLog2 q ≤ q ∧ q < (2 : ℚ) ^ (floorLog2 q + 1) := by
  have hnum : 0 < q.num := Rat.num_pos.mpr hq
  obtain ⟨ha1, ha2⟩ := natLog2_correct q.num.natAbs (Int.natAbs_pos.mpr hnum.ne')
  obtain ⟨hb1, hb2⟩ := natLog2_correct q.den q.den_pos
  have habs : |q| = q := abs_of_pos hq
  have hfl : floorLog2 q =
      if (2 : ℚ) ^ ((natLog2 q.num.natAbs : ℤ) - (natLog2 q.den : ℤ)) ≤ |q| then
        (natLog2 q.num.natAbs : ℤ) - (natLog2 q.den : ℤ)
      else (natLog2 q.num.natAbs : ℤ) - (natLog2 q.den : ℤ) - 1 := rfl
  have hn_cast : ((q.num.natAbs : ℕ) : ℚ) = (q.num : ℚ) := by
    rw [Int.cast_natAbs, abs_of_nonneg hnum.le]
  have hd0 : ((q.den : ℕ) : ℚ) ≠ 0 := Nat.cast_ne_zero.mpr q.den_pos.ne'
  have hqd : q * (q.den : ℚ) = ((q.num.natAbs : ℕ) : ℚ) := by
    rw [hn_cast]
    calc q * (q.den : ℚ) = ((q.num : ℚ) / (q.den : ℚ)) * (q.den : ℚ) := by
          rw [Rat.num_div_den q]
      _ = (q.num : ℚ) := div_mul_cancel₀ _ hd0
  -- cast the natural-number bounds into ℚ with integer exponents
  have hA1 : (2 : ℚ) ^ ((natLog2 q.num.natAbs : ℕ) : ℤ) ≤ ((q.num.natAbs : ℕ) : ℚ) := by
    rw [zpow_natCast]
    exact_mod_cast ha1
  have hA2 : ((q.num.natAbs : ℕ) : ℚ) < (2 : ℚ) ^ (((natLog2 q.num.natAbs : ℕ) : ℤ) + 1) := by
    rw [show ((natLog2 q.num.natAbs : ℕ) : ℤ) + 1 = ((natLog2 q.num.natAbs + 1 : ℕ) : ℤ) by
      push_cast; ring, zpow_natCast]
    exact_mod_cast ha2
  have hB1 : (2 : ℚ) ^ ((natLog2 q.den : ℕ) : ℤ) ≤ ((q.den : ℕ) : ℚ) := by
    rw [zpow_natCast]
    exact_mod_cast hb1
  have hB2 : ((q.den : ℕ) : ℚ) < (2 : ℚ) ^ (((natLog2 q.den : ℕ) : ℤ) + 1) := by
    rw [show ((natLog2 q.den : ℕ) : ℤ) + 1 = ((natLog2 q.den + 1 : ℕ) : ℤ) by
      push_cast; ring, zpow_natCast]
    exact_mod_cast hb2
  set A : ℤ := ((natLog2 q.num.natAbs : ℕ) : ℤ) with hA
  set B : ℤ := ((natLog2 q.den : ℕ) : ℤ) with hB
  -- upper bound: q < 2 ^ (A + 1 - B)
  have h2B : (0 : ℚ) < (2 : ℚ) ^ B := zpow_pos two_pos B
  have h2B1 : (0 : ℚ) < (2 : ℚ) ^ (B + 1) := zpow_pos two_pos (B + 1)
  have hub : q < (2 : ℚ) ^ (A + 1 - B) := by
    have step1 : q * (2 : ℚ) ^ B ≤ q * (q.den : ℚ) :=
      mul_le_mul_of_nonneg_left hB1 hq.le
    have step2 : q * (q.den : ℚ) < (2 : ℚ) ^ (A + 1) := by
      rw [hqd]; exact hA2
    have hlt : q * (2 : ℚ) ^ B < (2 : ℚ) ^ (A + 1) := lt_of_le_of_lt step1 step2
    rw [zpow_sub₀ (two_ne_zero)]
    exact (lt_div_iff₀ h2B).mpr hlt
  -- lower bound: 2 ^ (A - B - 1) < q
  have hlb : (2 : ℚ) ^ (A - B - 1) < q := by
    have s1 : (2 : ℚ) ^ A ≤ q * (q.den : ℚ) := by
      rw [hqd]; exact hA1
    have s2 : q * (q.den : ℚ) < q * (2 : ℚ) ^ (B + 1) :=
      mul_lt_mul_of_pos_left hB2 hq
    have hlt : (2 : ℚ) ^ A < q * (2 : ℚ) ^ (B + 1) := lt_of_le_of_lt s1 s2
    rw [show A - B - 1 = A - (B + 1) by ring, zpow_sub₀ (two_ne_zero)]
    exact (div_lt_iff₀ h2B1).mpr hlt
  rw [hfl, habs]
  by_cases hcase : (2 : ℚ) ^ (A - B) ≤ q
  · rw [if_pos hcase]
    refine ⟨hcase, ?_⟩
    rw [show A - B + 1 = A + 1 - B by ring]
    exact hub
  · rw [if_neg hcase]
    refine ⟨le_of_lt hlb, ?_⟩
    rw [show A - B - 1 + 1 = A - B by ring]
    exact not_le.mp hcase

/-- The floor base-2 logarithm is determined by its bracketing property. -/
theorem floorLog2_eq_of_bounds (q : ℚ) (e : ℤ) (hq : 0 < q)
    (h1 : (2 : ℚ) ^ e ≤ q) (h2 : q < (2 : ℚ) ^ (e + 1)) : floorLog2 q = e := by
  obtain ⟨g1, g2⟩ := floorLog2_correct q hq
  by_contra hne
  rcases lt_or_gt_of_ne hne with hlt | hgt
  · have hle : (2 : ℚ) ^ (floorLog2 q + 1) ≤ (2 : ℚ) ^ e :=
      zpow_le_zpow_right₀ one_le_two (by omega)
    linarith
  · have hle : (2 : ℚ) ^ (e + 1) ≤ (2 : ℚ) ^ floorLog2 q :=
      zpow_le_zpow_right₀ one_le_two (by omega)
    linarith

/-- Half-even rounding fixes integers. -/
theorem roundHalfEven_intCast (m : ℤ) : roundHalfEven (m : ℚ) = m := by
  have h0 : ((m : ℚ) - (⌊(m : ℚ)⌋ : ℚ)) = 0 := by
    rw [Int.floor_intCast]; ring
  simp only [roundHalfEven, h0]
  norm_num

/-- Computation rule for `roundDouble` on a positive value in the normal
range, given the bracketing exponent. -/
theorem roundDouble_eq_of_bounds (q : ℚ) (e : ℤ) (hq : 0 < q) (he : -1022 ≤ e)
    (h1 : (2 : ℚ) ^ e ≤ q) (h2 : q < (2 : ℚ) ^ (e + 1)) :
    roundDouble q = (roundHalfEven (q * (2 : ℚ) ^ (52 - e)) : ℚ) * (2 : ℚ) ^ (e - 52) := by
  have hfl : floorLog2 q = e := floorLog2_eq_of_bounds q e hq h1 h2
  have habs : |q| = q := abs_of_pos hq
  have hne : ¬ q = 0 := ne_of_gt hq
  have hnlt : ¬ q < 0 := not_lt.mpr hq.le
  have hp : ¬ e ≤ -1023 := by omega
  simp only [roundDouble, if_neg hne, habs, hfl, if_neg hp, if_neg hnlt, one_mul, neg_sub]

/-- `roundDouble` fixes every natural number below `2 ^ 53`: such values
are exactly representable doubles. -/
theorem roundDouble_natCast (N : ℕ) (h0 : 0 < N) (h53 : N < 2 ^ 53) :
    roundDouble (N : ℚ) = (N : ℚ) := by
  obtain ⟨hl, hu⟩ := natLog2_correct N h0
  have hL52 : natLog2 N ≤ 52 := by
    by_contra hc
    push_neg at hc
    have hmono : (2 : ℕ) ^ 53 ≤ 2 ^ natLog2 N := Nat.pow_le_pow_right (by norm_num) (by omega)
    omega
  have hq0 : (0 : ℚ) < (N : ℚ) := by exact_mod_cast h0
  have hlq : (2 : ℚ) ^ ((natLog2 N : ℕ) : ℤ) ≤ (N : ℚ) := by
    rw [zpow_natCast]
    exact_mod_cast hl
  have huq : (N : ℚ) < (2 : ℚ) ^ (((natLog2 N : ℕ) : ℤ) + 1) := by
    rw [show ((natLog2 N : ℕ) : ℤ) + 1 = ((natLog2 N + 1 : ℕ) : ℤ) by push_cast; ring,
      zpow_natCast]
    exact_mod_cast hu
  rw [roundDouble_eq_of_bounds (N : ℚ) ((natLog2 N : ℕ) : ℤ) hq0 (by omega) hlq huq]
  have hk : (52 - ((natLog2 N : ℕ) : ℤ)) = ((52 - natLog2 N : ℕ) : ℤ) := by omega
  have hscaled : (N : ℚ) * (2 : ℚ) ^ (52 - ((natLog2 N : ℕ) : ℤ)) =
      ((N * 2 ^ (52 - natLog2 N) : ℕ) : ℚ) := by
    rw [hk, zpow_natCast]
    push_cast
    ring
  rw [hscaled]
  have hrhe : roundHalfEven ((N * 2 ^ (52 - natLog2 N) : ℕ) : ℚ) =
      ((N * 2 ^ (52 - natLog2 N) : ℕ) : ℤ) := by
    have h' := roundHalfEven_intCast ((N * 2 ^ (52 - natLog2 N) : ℕ) : ℤ)
    rw [← h']
    norm_cast
  rw [hrhe]
  rw [show ((natLog2 N : ℕ) : ℤ) - 52 = -(52 - ((natLog2 N : ℕ) : ℤ)) by ring, hk,
    zpow_neg, zpow_natCast]
  push_cast
  rw [mul_assoc, mul_inv_cancel₀ (by positivity), mul_one]

/-- JS multiplication of an in-range natural amount by 100 is exact. -/
theorem jsMul_nat_exact (a : ℕ) (h0 : 0 < a) (h : a * 100 < 2 ^ 53) :
    jsMul (a : ℚ) 100 = (a : ℚ) * 100 := by
  have h1 : ((a : ℚ) * 100) = ((a * 100 : ℕ) : ℚ) := by push_cast; ring
  rw [jsMul, h1, roundDouble_natCast (a * 100) (by omega) h]

/-! ## Claim C9 -/

/-- C9 counterexample: the kobo conversion at initiation is the IEEE double
product `amount * 100`, which is not exact for every input: for the
representable (integer!) amount `2^51 + 1`, the value sent to the gateway
is 225179981368524896, not the exact product 225179981368524900. -/
theorem c9_counterexample :
    ((initPayment uidA (some "a@b.io") (some ((2 : ℚ) ^ 51 + 1)) (some "hotel1")
        (some BookingData.empty) gwInitOk).2).map PaymentData.amount =
      some (jsMul ((2 : ℚ) ^ 51 + 1) 100) ∧
    isDouble ((2 : ℚ) ^ 51 + 1) ∧
    jsMul ((2 : ℚ) ^ 51 + 1) 100 = 225179981368524896 ∧
    (225179981368524896 : ℚ) ≠ ((2 : ℚ) ^ 51 + 1) * 100 := by
  have htr : truthyQ (some ((2 : ℚ) ^ 51 + 1)) = true := by
    simp only [truthyQ, Bool.not_eq_true', beq_eq_false_iff_ne, ne_eq]
    norm_num
  refine ⟨?_, ?_, ?_, by norm_num⟩
  · simp [initPayment, truthyS, htr, gwInitOk]
  · show roundDouble _ = _
    have h : ((2 : ℚ) ^ 51 + 1) = ((2251799813685249 : ℕ) : ℚ) := by norm_num
    rw [h, roundDouble_natCast 2251799813685249 (by norm_num) (by norm_num)]
  · rw [jsMul]
    have h : ((2 : ℚ) ^ 51 + 1) * 100 = (225179981368524900 : ℚ) := by norm_num
    rw [h, roundDouble_eq_of_bounds (225179981368524900 : ℚ) 57 (by norm_num)
      (by norm_num) (by norm_num) (by norm_num)]
    have hs : (225179981368524900 : ℚ) * (2 : ℚ) ^ ((52 : ℤ) - 57) =
        56294995342131225 / 8 := by norm_num
    rw [hs]
    have hfl : ⌊(56294995342131225 / 8 : ℚ)⌋ = 7036874417766403 := by norm_num
    have hrhe : roundHalfEven (56294995342131225 / 8 : ℚ) = 7036874417766403 := by
      simp only [roundHalfEven, hfl]
      norm_num
    rw [hrhe]
    norm_num

/-- C9 amended: the conversion is IEEE binary64 multiplication, not exact
integer arithmetic in general; it is exact for every positive integer
amount whose kobo value stays below `2^53` (in particular for all
realistic naira totals), and rounds beyond that (see the counterexample at
`2^51 + 1`). -/
theorem c9_amended_exact_in_range (a : ℕ) (h0 : 0 < a) (h : a * 100 < 2 ^ 53) :
    jsMul (a : ℚ) 100 = (a : ℚ) * 100 :=
  jsMul_nat_exact a h0 h

/-- C9 amended witness: the spec §8 scenario amount 94500 naira converts
exactly. -/
theorem c9_amended_witness :
    0 < 945 ∧ 945 * 100 < 2 ^ 53 ∧
    jsMul ((945 : ℕ) : ℚ) 100 = ((945 : ℕ) : ℚ) * 100 :=
  ⟨by norm_num, by norm_num, c9_amended_exact_in_range 945 (by norm_num) (by norm_num)⟩

/-! ## Claim C10 -/

/-- C10: when the gateway confirms success and the metadata parses, a
Booking is materialized even from an entirely field-less intent, with the
silent defaults of the source (`|| 'Standard Room'`, `|| 1`, `|| 0`,
`|| \x7b\x7d`); the incomplete intent is never rejected after a confirmed
payment. -/
theorem c10_silent_defaults (ref : String) (resp : VerifyResponse) (bd : BookingData)
    (st : Store) (now : ℕ)
    (h1 : resp.status = true) (h2 : resp.data.status = "success")
    (h3 : resp.data.booking_data = some bd)
    (h4 : isValidObjectId resp.data.user_id = true)
    (h5 : bd.roomType = none) (h6 : bd.guests = none) (h7 : bd.nights = none)
    (h8 : bd.pricePerNight = none) (h9 : bd.subtotal = none) (h10 : bd.serviceFee = none)
    (h11 : bd.guestDetails = none) :
    ∃ b, (verify (some ref) (.ok resp) true now st).1 = .successRedirect ref ∧
      (verify (some ref) (.ok resp) true now st).2.bookings = st.bookings ++ [b] ∧
      b.room_type = "Standard Room" ∧ b.guests = 1 ∧ b.nights = 1 ∧
      b.price_per_night = 0 ∧ b.subtotal = 0 ∧ b.service_fee = 0 ∧
      b.guest_details = [] := by
  refine ⟨mkNewBooking ref resp.data bd now, ?_, ?_, ?_, ?_, ?_, ?_, ?_, ?_, ?_⟩
  · rw [verify_success_eq ref resp bd now st h1 h2 h3 h4]
  · rw [verify_success_eq ref resp bd now st h1 h2 h3 h4]
  all_goals simp [mkNewBooking, jsOrS, jsOrQ, jsOrObj, h5, h6, h7, h8, h9, h10, h11]

/-- C10 witness: the all-absent intent `BookingData.empty` still
materializes, with room type "Standard Room", one guest, one night, zero
prices and empty guest details. -/
theorem c10_witness :
    respEmptyIntent.status = true ∧ respEmptyIntent.data.status = "success" ∧
    respEmptyIntent.data.booking_data = some BookingData.empty ∧
    isValidObjectId respEmptyIntent.data.user_id = true ∧
    BookingData.empty.roomType = none ∧ BookingData.empty.guests = none ∧
    BookingData.empty.nights = none ∧ BookingData.empty.pricePerNight = none ∧
    BookingData.empty.subtotal = none ∧ BookingData.empty.serviceFee = none ∧
    BookingData.empty.guestDetails = none ∧
    (∃ b, (verify (some "REF123") (.ok respEmptyIntent) true 0 Store.empty).1 =
        .successRedirect "REF123" ∧
      (verify (some "REF123") (.ok respEmptyIntent) true 0 Store.empty).2.bookings =
        Store.empty.bookings ++ [b] ∧
      b.room_type = "Standard Room" ∧ b.guests = 1 ∧ b.nights = 1 ∧
      b.price_per_night = 0 ∧ b.subtotal = 0 ∧ b.service_fee = 0 ∧
      b.guest_details = []) :=
  ⟨rfl, rfl, rfl, by decide, rfl, rfl, rfl, rfl, rfl, rfl, rfl,
   c10_silent_defaults "REF123" respEmptyIntent BookingData.empty Store.empty 0
     rfl rfl rfl (by decide) rfl rfl rfl rfl rfl rfl rfl⟩

end Fago
